import Mathlib

/-!
# Shallow embedding of the twenty-questions-game core

This file embeds the turn-based game logic of the repository
(`src/twenty_questions_game.py`, `src/twenty_questions_ai.py`,
`src/utils/game_utils.py`) in Lean 4 and proves properties about it.

The external language model is modelled as an oracle: a pure function from
the current chat history and the new input to the response text.  The
langchain `LLMChain.run` call used by `TwentyQuestionsGame.run` saves both
the human input and the AI response into the `ConversationBufferMemory`
(`save_context`), so one `run` call appends a human message and an AI
message; `process_game_turn` additionally appends the user message
explicitly beforehand, so each turn appends the user message twice and the
AI response once.  Python exceptions are modelled with `Except PyErr`.
-/

set_option maxRecDepth 10000

/-- Speaker tag of one chat message (langchain `HumanMessage` / `AIMessage`). -/
inductive Role where
  | human
  | ai
deriving DecidableEq

/-- One chat message stored in the conversation buffer. -/
structure Msg where
  role : Role
  text : String
deriving DecidableEq

/-- Exceptions the embedded Python code can raise.  `invalidInput` is the
error kind named by the spec's error model; the code itself never raises it.
`loopLimit` is a modelling artifact for the `while` loop fuel in
`simulate_game`; it is provably unreachable from `simulate_game`. -/
inductive PyErr where
  | attributeError
  | indexError
  | zeroDivisionError
  | invalidInput
  | loopLimit
deriving DecidableEq

/-- The `TwentyQuestionsGame` state: the (opaque) language-model configuration
`llm` and the conversation buffer `messages`
(`game.memory.chat_memory.messages`).  `reset_game` rebuilds the LLM chain
from the same `llm` and the cleared memory, so `llm` captures the whole
retained configuration. -/
structure TwentyQuestionsGame where
  llm : String
  messages : List Msg
deriving DecidableEq

instance {ε α : Type} [DecidableEq ε] [DecidableEq α] : DecidableEq (Except ε α) := fun
  | Except.error a, Except.error b =>
      if h : a = b then Decidable.isTrue (by rw [h])
      else Decidable.isFalse (by intro hh; cases hh; exact h rfl)
  | Except.error _, Except.ok _ => Decidable.isFalse (by intro h; cases h)
  | Except.ok _, Except.error _ => Decidable.isFalse (by intro h; cases h)
  | Except.ok a, Except.ok b =>
      if h : a = b then Decidable.isTrue (by rw [h])
      else Decidable.isFalse (by intro hh; cases hh; exact h rfl)

/-- Embeds `initialize_game` (twenty_questions_ai.py:150-158): a fresh game has an
empty conversation buffer. -/
def initialize_game (llm : String) : TwentyQuestionsGame :=
  { llm := llm, messages := [] }

/-- Python `game.memory.chat_memory.add_user_message(text)`. -/
def add_user_message (g : TwentyQuestionsGame) (text : String) : TwentyQuestionsGame :=
  { g with messages := g.messages ++ [{ role := Role.human, text := text }] }

/-- Python `game.memory.chat_memory.add_ai_message(text)`. -/
def add_ai_message (g : TwentyQuestionsGame) (text : String) : TwentyQuestionsGame :=
  { g with messages := g.messages ++ [{ role := Role.ai, text := text }] }

/-- The type of the completion oracle standing in for the LLM: current
chat history and new input to response text. -/
abbrev Oracle := List Msg → String → String

/-- Embeds `TwentyQuestionsGame.run` (twenty_questions_game.py:76-86): runs the
LLM chain on the input.  The chain's `ConversationBufferMemory` saves the
human input and the AI response into chat memory (`save_context`). -/
def TwentyQuestionsGame.run (oracle : Oracle) (g : TwentyQuestionsGame)
    (user_input : String) : String × TwentyQuestionsGame :=
  let response := oracle g.messages user_input
  (response, add_ai_message (add_user_message g user_input) response)

/-- The AI messages of the buffer, as filtered by
`[msg for msg in ... if isinstance(msg, AIMessage)]`. -/
def ai_messages (msgs : List Msg) : List Msg :=
  msgs.filter (fun m => m.role == Role.ai)

/-- Number of AI messages in the buffer. -/
def countAI (msgs : List Msg) : Nat :=
  (ai_messages msgs).length

/-- The question count of a game state, `len(ai_messages) - 1`
(game_utils.py:93-96). -/
def question_count (g : TwentyQuestionsGame) : Int :=
  (countAI g.messages : Int) - 1

/-- Embeds `get_latest_question` (twenty_questions_game.py:88-100):
`ai_messages[-1].content if ai_messages else None`. -/
def get_latest_question (g : TwentyQuestionsGame) : Option String :=
  ((ai_messages g.messages).getLast?).map Msg.text

/-- Embeds `reset_game` (twenty_questions_game.py:102-119): `self.memory.clear()`
then `self.setup_llm_chain()`, which rebuilds the chain from the unchanged
`llm` and the cleared memory.  No message is re-seeded here. -/
def reset_game (g : TwentyQuestionsGame) : TwentyQuestionsGame :=
  { g with messages := [] }

/-- The fixed opening guesser message seeded by `game_loop` and
`simulate_game`. -/
def init_message : String :=
  "Let's play 20 Questions! Think of an object, and I will try to guess it. You can only answer 'Yes' or 'No'."

/-- The game state right after seeding, as produced at the start of
`game_loop` (game_utils.py:15-17) and `simulate_game`
(game_utils.py:118-120). -/
def seeded_game (llm : String) : TwentyQuestionsGame :=
  add_ai_message (initialize_game llm) init_message

/-- Decides whether `n` is a leading block of `h` (character lists). -/
def charsPrefixOf : List Char → List Char → Bool
  | [], _ => true
  | _ :: _, [] => false
  | a :: n, b :: h => a == b && charsPrefixOf n h

/-- Python's `needle in hay` substring containment on character lists. -/
def hasSubstr (needle : List Char) : List Char → Bool
  | [] => needle.isEmpty
  | c :: rest => charsPrefixOf needle (c :: rest) || hasSubstr needle rest

/-- Python `str.strip()`: removes leading and trailing whitespace.
Implemented over the character list so that it evaluates by kernel
reduction. -/
def pyStrip (s : String) : String :=
  { data := ((s.data.dropWhile Char.isWhitespace).reverse.dropWhile Char.isWhitespace).reverse }

/-- Python `str.lower()`: lowercases every character. -/
def pyLower (s : String) : String :=
  { data := s.data.map Char.toLower }

/-- Python `s.startswith(pre)`. -/
def pyStartsWith (s pre : String) : Bool :=
  charsPrefixOf pre.data s.data

/-- Python `needle in hay` for strings. -/
def pyContains (hay needle : String) : Bool :=
  hasSubstr needle.data hay.data

/-- Embeds `process_game_turn` (game_utils.py:72-98).  Appends the user message,
runs the chain, computes
`game_over = response.strip().lower().startswith("hooray") or
concept.lower() in response.lower()`.  Python's `or` short-circuits, so
`concept.lower()` is evaluated only when the token check is false; with
`concept = None` that dereference raises `AttributeError`.  The mutated
game state is returned alongside the Python result. -/
def process_game_turn (oracle : Oracle) (g : TwentyQuestionsGame)
    (user_input : String) (concept : Option String) :
    Except PyErr (String × Bool × Int) × TwentyQuestionsGame :=
  let g := add_user_message g user_input
  let p := TwentyQuestionsGame.run oracle g user_input
  let response := p.1
  let g := p.2
  let token := pyStartsWith (pyLower (pyStrip response)) "hooray"
  match concept with
  | some c =>
      let game_over := token || pyContains (pyLower response) (pyLower c)
      (Except.ok (response, game_over, question_count g), g)
  | none =>
      if token then (Except.ok (response, true, question_count g), g)
      else (Except.error PyErr.attributeError, g)

/-- Embeds `process_game_turn` (twenty_questions_ai.py:241-263): the variant
without a concept; `game_over` is the token check alone. -/
def process_game_turn_ai (oracle : Oracle) (g : TwentyQuestionsGame)
    (user_input : String) : (String × Bool × Int) × TwentyQuestionsGame :=
  let g := add_user_message g user_input
  let p := TwentyQuestionsGame.run oracle g user_input
  let response := p.1
  let g := p.2
  let game_over := pyStartsWith (pyLower (pyStrip response)) "hooray"
  ((response, game_over, question_count g), g)

/-- Runs `N` successive `process_game_turn` calls (twenty_questions_ai.py
variant), with the `n`-th call fed `inputs n`. -/
def iterate_turns (oracle : Oracle) (inputs : Nat → String) :
    Nat → TwentyQuestionsGame → TwentyQuestionsGame
  | 0, g => g
  | n + 1, g => (process_game_turn_ai oracle (iterate_turns oracle inputs n g) (inputs n)).2

/-- The prompt template of `ai_user_response` (game_utils.py:159-168),
with `{concept}` and `{question}` interpolated as in the f-string. -/
def user_prompt (concept question : String) : String :=
  "\n    You are playing the '20 Questions' game with another player. Your role is to answer 'Yes' or 'No' to questions based on a given concept or object.\n\n    ## Concept/Object:\n    The concept/object for this session is identified as "
    ++ concept
    ++ ".\n    ## Rules for Answering Questions:\n    Direct Relevance: If the binary question ("
    ++ question ++ ") asked by the player is directly related to the "
    ++ concept ++ ", respond truthfully based on the nature of the "
    ++ concept ++ ".\n    - Answer 'YES' if the " ++ question
    ++ " correctly pertains to the " ++ concept
    ++ ".\n    - Answer 'NO' if the " ++ question
    ++ " does not pertain to the " ++ concept ++ ".\n    Answer:"

/-- Embeds `ai_user_response` (game_utils.py:146-173).  The responder LLM is the
oracle `predict` from prompt to raw output; the raw output is normalised to
exactly "Yes" or "No":
`return "Yes" if ai_response.strip().lower() == "yes" else "No"`. -/
def ai_user_response (predict : String → String) (concept question : String) : String :=
  let ai_response := predict (user_prompt concept question)
  if pyLower (pyStrip ai_response) = "yes" then "Yes" else "No"

/-- The `while question_count < 20` loop of `simulate_game`
(game_utils.py:122-143), with explicit fuel bounding the number of
condition checks.  Each iteration recomputes `question_count` as
`countAI - 1`, and `countAI` grows by exactly one per turn, so starting
from the seeded state (`countAI = 1`, `question_count = 0`) the loop checks
the condition at most 21 times; `simulate_game` passes fuel 21 and the
`loopLimit` branch is unreachable from it (`simulate_loop_ok` below). -/
def simulate_loop (oracle : Oracle) (predict : String → String) (concept : String) :
    Nat → Int → String → TwentyQuestionsGame →
    Except PyErr ((String × String × Int) × TwentyQuestionsGame)
  | 0, qc, _user_input, g =>
    if qc < 20 then Except.error PyErr.loopLimit
    else Except.ok ((concept, "Failure", qc), g)
  | fuel + 1, qc, user_input, g =>
    if qc < 20 then
      match process_game_turn oracle g user_input (some concept) with
      | (Except.error e, _) => Except.error e
      | (Except.ok (_response, game_over, qc'), g') =>
        if game_over then Except.ok ((concept, "Success", qc'), g')
        else
          let latest_question := (get_latest_question g').getD "None"
          simulate_loop oracle predict concept fuel qc'
            (ai_user_response predict concept latest_question) g'
    else Except.ok ((concept, "Failure", qc), g)

/-- Embeds `simulate_game` (game_utils.py:101-143): resets the game, seeds the
opening message, then runs the question loop starting from
`question_count = 0` and `user_input = "Yes"`.  The env/credential loading
at the top of the function has no effect on the game state and is omitted.
Returns the `(concept, outcome, question_count)` triple together with the
mutated game state. -/
def simulate_game (oracle : Oracle) (predict : String → String)
    (g : TwentyQuestionsGame) (concept : String) :
    Except PyErr ((String × String × Int) × TwentyQuestionsGame) :=
  let g := reset_game g
  let g := add_ai_message g init_message
  simulate_loop oracle predict concept 21 0 "Yes" g

/-- The result dictionary of `bulk_test_game` (game_utils.py:64-69). -/
structure BulkResults where
  detailed_results : List (String × String × Int)
  success_count : Nat
  average_questions : Rat
  performance_score : Rat
deriving DecidableEq

/-- The `for _ in range(num_games)` loop of `bulk_test_game`
(game_utils.py:52-55): runs `k` rounds starting at round index `i`,
threading the game state.  `random.choice(concepts)` raises `IndexError`
on an empty list and otherwise selects some element of `concepts`; the
selection is modelled by the `choose` oracle.  The guesser and responder
oracles take the round index so that rounds may behave differently. -/
def bulk_rounds (oracle : Nat → Oracle) (predict : Nat → String → String)
    (choose : Nat → Nat) (concepts : List String) :
    Nat → Nat → TwentyQuestionsGame →
    Except PyErr (List (String × String × Int) × TwentyQuestionsGame)
  | 0, _, g => Except.ok ([], g)
  | k + 1, i, g =>
    if concepts.length = 0 then Except.error PyErr.indexError
    else
      match simulate_game (oracle i) (predict i) g
          (concepts.getD (choose i % concepts.length) "") with
      | Except.error e => Except.error e
      | Except.ok (r, g') =>
        match bulk_rounds oracle predict choose concepts k (i + 1) g' with
        | Except.error e => Except.error e
        | Except.ok (rs, g'') => Except.ok (r :: rs, g'')

/-- Embeds `bulk_test_game` (game_utils.py:37-69).  `num_games` is a Python `int`;
`range(num_games)` is empty when `num_games <= 0`.  The aggregation divides
by `num_games`: Python raises `ZeroDivisionError` when `num_games == 0`
and otherwise performs exact float division, modelled over `Rat`.  The
function returns only the result dictionary; the game state is internal. -/
def bulk_test_game (oracle : Nat → Oracle) (predict : Nat → String → String)
    (choose : Nat → Nat) (g : TwentyQuestionsGame) (concepts : List String)
    (num_games : Int) : Except PyErr BulkResults :=
  match bulk_rounds oracle predict choose concepts num_games.toNat 0 g with
  | Except.error e => Except.error e
  | Except.ok (results, _) =>
    let success_count := results.countP (fun r => r.2.1 == "Success")
    if num_games = 0 then Except.error PyErr.zeroDivisionError
    else
      Except.ok
        { detailed_results := results
          success_count := success_count
          average_questions :=
            ((results.map (fun r => ((r.2.2 : Int) : Rat))).sum) / (num_games : Rat)
          performance_score := (success_count : Rat) / (num_games : Rat) }

/-- The response text produced inside one `process_game_turn` call: the
oracle applied to the buffer as the chain sees it (after the explicit
`add_user_message`) and the new input. -/
def turn_response (oracle : Oracle) (g : TwentyQuestionsGame) (u : String) : String :=
  oracle (g.messages ++ [{ role := Role.human, text := u }]) u

@[simp] theorem beq_role_human_ai : (Role.human == Role.ai) = false := rfl

@[simp] theorem beq_role_ai_ai : (Role.ai == Role.ai) = true := rfl

theorem countAI_append (a b : List Msg) : countAI (a ++ b) = countAI a + countAI b := by
  simp [countAI, ai_messages, List.filter_append]

@[simp] theorem countAI_human_singleton (t : String) :
    countAI [{ role := Role.human, text := t }] = 0 := rfl

@[simp] theorem countAI_ai_singleton (t : String) :
    countAI [{ role := Role.ai, text := t }] = 1 := rfl

/-- One `process_game_turn` call of the twenty_questions_ai.py variant,
written out: the response is the oracle output, the flag is the victory
token check, the returned count is `countAI` of the old buffer, and the new
buffer carries the user message twice and the response once. -/
theorem process_game_turn_ai_eq (oracle : Oracle) (g : TwentyQuestionsGame) (u : String) :
    process_game_turn_ai oracle g u =
      ((turn_response oracle g u,
        pyStartsWith (pyLower (pyStrip (turn_response oracle g u))) "hooray",
        (countAI g.messages : Int)),
       { g with
          messages := g.messages ++
            [{ role := Role.human, text := u }, { role := Role.human, text := u },
             { role := Role.ai, text := turn_response oracle g u }] }) := by
  simp only [process_game_turn_ai, TwentyQuestionsGame.run, add_user_message,
    add_ai_message, turn_response, question_count, List.append_assoc,
    List.cons_append, List.nil_append, Prod.mk.injEq, true_and]
  constructor
  · rw [countAI_append]
    simp [countAI, ai_messages]
  · trivial

/-- One `process_game_turn` call of the game_utils.py variant with a
present concept, written out. -/
theorem process_game_turn_some_eq (oracle : Oracle) (g : TwentyQuestionsGame)
    (u c : String) :
    process_game_turn oracle g u (some c) =
      (Except.ok (turn_response oracle g u,
        pyStartsWith (pyLower (pyStrip (turn_response oracle g u))) "hooray"
          || pyContains (pyLower (turn_response oracle g u)) (pyLower c),
        (countAI g.messages : Int)),
       { g with
          messages := g.messages ++
            [{ role := Role.human, text := u }, { role := Role.human, text := u },
             { role := Role.ai, text := turn_response oracle g u }] }) := by
  simp only [process_game_turn, TwentyQuestionsGame.run, add_user_message,
    add_ai_message, turn_response, question_count, List.append_assoc,
    List.cons_append, List.nil_append, Prod.mk.injEq, Except.ok.injEq, true_and]
  constructor
  · rw [countAI_append]
    simp [countAI, ai_messages]
  · trivial

theorem charsPrefixOf_iff (n h : List Char) :
    charsPrefixOf n h = true ↔ ∃ t, h = n ++ t := by
  induction n generalizing h with
  | nil => simp [charsPrefixOf]
  | cons a n ih =>
    cases h with
    | nil =>
      simp [charsPrefixOf]
    | cons b h =>
      simp only [charsPrefixOf, Bool.and_eq_true, beq_iff_eq, ih, List.cons_append,
        List.cons.injEq]
      constructor
      · rintro ⟨rfl, t, rfl⟩
        exact ⟨t, rfl, rfl⟩
      · rintro ⟨t, rfl, rfl⟩
        exact ⟨rfl, t, rfl⟩

theorem hasSubstr_iff (n h : List Char) :
    hasSubstr n h = true ↔ ∃ s t, h = s ++ n ++ t := by
  induction h with
  | nil =>
    simp only [hasSubstr, List.isEmpty_iff]
    constructor
    · rintro rfl
      exact ⟨[], [], rfl⟩
    · rintro ⟨s, t, hst⟩
      rcases List.append_eq_nil.mp (List.append_eq_nil.mp hst.symm).1 with ⟨-, h2⟩
      exact h2
  | cons c rest ih =>
    simp only [hasSubstr, Bool.or_eq_true, charsPrefixOf_iff, ih]
    constructor
    · rintro (⟨t, ht⟩ | ⟨s, t, hst⟩)
      · exact ⟨[], t, by simpa using ht⟩
      · exact ⟨c :: s, t, by simp [hst]⟩
    · rintro ⟨s, t, hst⟩
      cases s with
      | nil =>
        exact Or.inl ⟨t, by simpa using hst⟩
      | cons x s =>
        rw [List.cons_append, List.cons_append, List.cons.injEq] at hst
        exact Or.inr ⟨s, t, hst.2⟩

theorem find?_eq_head?_filter (p : α → Bool) (l : List α) :
    l.find? p = (l.filter p).head? := by
  induction l with
  | nil => rfl
  | cons a l ih =>
    rw [List.find?_cons, List.filter_cons]
    cases h : p a
    · exact ih
    · simp [h]

theorem getLast?_filter_eq_find?_reverse (p : α → Bool) (l : List α) :
    (l.filter p).getLast? = l.reverse.find? p := by
  rw [find?_eq_head?_filter, List.filter_reverse, List.head?_reverse]

@[simp] theorem countAI_turn_block (u r : String) :
    countAI [{ role := Role.human, text := u }, { role := Role.human, text := u },
      { role := Role.ai, text := r }] = 1 := rfl

/-- The loop invariant makes the fuel sufficient: from any state with
`countAI = qc + 1`, `0 ≤ qc ≤ 20` and `qc + fuel = 21`, the simulated
round finishes without an exception (so the `loopLimit` fuel bound is
unreachable from `simulate_game`). -/
theorem simulate_loop_ok (oracle : Oracle) (predict : String → String) (concept : String) :
    ∀ (fuel : Nat) (qc : Int) (input : String) (g : TwentyQuestionsGame),
      (countAI g.messages : Int) = qc + 1 → 0 ≤ qc → qc ≤ 20 → qc + fuel = 21 →
      ∃ v, simulate_loop oracle predict concept fuel qc input g = Except.ok v := by
  intro fuel
  induction fuel with
  | zero =>
    intro qc input g _ _ h20 h21
    exfalso
    omega
  | succ fuel ih =>
    intro qc input g hc h0 h20 h21
    rw [simulate_loop]
    by_cases hlt : qc < 20
    · rw [if_pos hlt, process_game_turn_some_eq]
      dsimp only
      by_cases hover :
          (pyStartsWith (pyLower (pyStrip (turn_response oracle g input))) "hooray"
            || pyContains (pyLower (turn_response oracle g input)) (pyLower concept)) = true
      · rw [if_pos hover]
        exact ⟨_, rfl⟩
      · rw [if_neg hover]
        refine ih (countAI g.messages) _ _ ?_ ?_ ?_ ?_
        · show ((countAI (g.messages ++ _) : Nat) : Int) = _
          rw [countAI_append, countAI_turn_block]
          push_cast
          ring
        · omega
        · omega
        · omega
    · rw [if_neg hlt]
      exact ⟨_, rfl⟩

/-- Fact: `simulate_game` never raises: it always produces a round result. -/
theorem simulate_game_ok (oracle : Oracle) (predict : String → String)
    (g : TwentyQuestionsGame) (concept : String) :
    ∃ v, simulate_game oracle predict g concept = Except.ok v := by
  refine simulate_loop_ok oracle predict concept 21 0 "Yes" _ ?_ ?_ ?_ ?_
  · show ((countAI [{ role := Role.ai, text := init_message }] : Nat) : Int) = 0 + 1
    norm_num
  · norm_num
  · norm_num
  · norm_num

/-- If the guesser's responses are never terminal for `concept`, the loop
runs all the way to `question_count = 20` and reports Failure there. -/
theorem simulate_loop_failure (oracle : Oracle) (predict : String → String) (concept : String)
    (hnt : ∀ msgs input,
      (pyStartsWith (pyLower (pyStrip (oracle msgs input))) "hooray"
        || pyContains (pyLower (oracle msgs input)) (pyLower concept)) = false) :
    ∀ (fuel : Nat) (qc : Int) (input : String) (g : TwentyQuestionsGame),
      (countAI g.messages : Int) = qc + 1 → 0 ≤ qc → qc ≤ 20 → qc + fuel = 21 →
      (simulate_loop oracle predict concept fuel qc input g).map (fun r => r.1) =
        Except.ok (concept, "Failure", 20) := by
  intro fuel
  induction fuel with
  | zero =>
    intro qc input g _ _ h20 h21
    exfalso
    omega
  | succ fuel ih =>
    intro qc input g hc h0 h20 h21
    rw [simulate_loop]
    by_cases hlt : qc < 20
    · rw [if_pos hlt, process_game_turn_some_eq]
      dsimp only
      rw [turn_response, hnt, if_neg (by simp)]
      refine ih (countAI g.messages) _ _ ?_ ?_ ?_ ?_
      · show ((countAI (g.messages ++ _) : Nat) : Int) = _
        rw [countAI_append, countAI_turn_block]
        push_cast
        ring
      · omega
      · omega
      · omega
    · rw [if_neg hlt]
      have hq : qc = 20 := by omega
      rw [hq]
      rfl

/-- One `process_game_turn` call of the game_utils.py variant with
`concept = None`, written out: the token check decides between returning
the triple and raising `AttributeError`. -/
theorem process_game_turn_none_eq (oracle : Oracle) (g : TwentyQuestionsGame) (u : String) :
    process_game_turn oracle g u none =
      (if pyStartsWith (pyLower (pyStrip (turn_response oracle g u))) "hooray"
        then Except.ok (turn_response oracle g u, true, (countAI g.messages : Int))
        else Except.error PyErr.attributeError,
       { g with
          messages := g.messages ++
            [{ role := Role.human, text := u }, { role := Role.human, text := u },
             { role := Role.ai, text := turn_response oracle g u }] }) := by
  simp only [process_game_turn, TwentyQuestionsGame.run, add_user_message,
    add_ai_message, turn_response, question_count, List.append_assoc,
    List.cons_append, List.nil_append]
  by_cases h : pyStartsWith (pyLower (pyStrip
      (oracle (g.messages ++ [{ role := Role.human, text := u }]) u))) "hooray"
  · rw [if_pos h, if_pos h]
    simp only [Prod.mk.injEq, Except.ok.injEq, true_and]
    constructor
    · rw [countAI_append]
      simp [countAI, ai_messages]
    · trivial
  · rw [if_neg h, if_neg h]

/-- The `countAI` of the state produced by `N` iterated turns from the
seeded state is `N + 1` (the opening message plus one AI response per
turn). -/
theorem countAI_iterate_turns (oracle : Oracle) (inputs : Nat → String) (llm : String) :
    ∀ N : Nat, countAI ((iterate_turns oracle inputs N (seeded_game llm)).messages) = N + 1 := by
  intro N
  induction N with
  | zero =>
    simp [iterate_turns, seeded_game, add_ai_message, initialize_game, countAI, ai_messages]
  | succ n ih =>
    rw [iterate_turns, process_game_turn_ai_eq]
    dsimp only
    rw [countAI_append, countAI_turn_block, ih]

/-! ## Claim theorems -/

/-- Claim C1: for every seeded session, the `question_count` returned by
`process_game_turn` equals the number of guesser (AI) turns in the
transcript minus one, and after `N` `process_game_turn` calls from the
freshly seeded state, `question_count` equals `N`. -/
theorem c1_question_count_counts_turns (oracle : Oracle) (inputs : Nat → String)
    (llm : String) (N : Nat) :
    question_count (iterate_turns oracle inputs N (seeded_game llm)) = N
    ∧ ∀ (g : TwentyQuestionsGame) (input : String),
        (process_game_turn_ai oracle g input).1.2.2 =
          ((ai_messages (process_game_turn_ai oracle g input).2.messages).length : Int) - 1 := by
  constructor
  · rw [question_count, countAI_iterate_turns]
    push_cast
    ring
  · intro g input
    rw [process_game_turn_ai_eq]
    dsimp only
    have : (ai_messages (g.messages ++
        [{ role := Role.human, text := input }, { role := Role.human, text := input },
         { role := Role.ai, text := turn_response oracle g input }])).length =
        countAI g.messages + 1 := by
      show countAI _ = _
      rw [countAI_append, countAI_turn_block]
    rw [this]
    push_cast
    ring

/-- Claim C2 counterexample: the response "I think it's a hooraygun" does NOT
set the token-match termination signal, contrary to the claim that it is
terminal under the `startswith` rule — `startswith` only looks at the
beginning of the trimmed response, and this response starts with "I
think". -/
theorem c2_hooraygun_counterexample :
    (process_game_turn_ai (fun _ _ => "I think it's a hooraygun")
      (seeded_game "llm") "Yes").1.2.1 = false := by
  decide

/-- Claim C2 (amended): the token-match signal is true exactly when the
response, after trimming surrounding whitespace and lowercasing, starts
with "hooray"; "hooray!", "  Hooray, I win" and "HOORAY" are terminal,
while "I think it's a hooraygun" is NOT terminal (the naive rule is
`startswith`, not substring containment). -/
theorem c2_token_match_is_trimmed_lowercased_startswith (oracle : Oracle)
    (g : TwentyQuestionsGame) (input : String) :
    ((process_game_turn_ai oracle g input).1.2.1 = true ↔
      ∃ rest, (pyLower (pyStrip (process_game_turn_ai oracle g input).1.1)).data =
        "hooray".data ++ rest)
    ∧ (process_game_turn_ai (fun _ _ => "hooray!") (seeded_game "llm") "Yes").1.2.1 = true
    ∧ (process_game_turn_ai (fun _ _ => "  Hooray, I win") (seeded_game "llm") "Yes").1.2.1 = true
    ∧ (process_game_turn_ai (fun _ _ => "HOORAY") (seeded_game "llm") "Yes").1.2.1 = true
    ∧ (process_game_turn_ai (fun _ _ => "I think it's a hooraygun")
        (seeded_game "llm") "Yes").1.2.1 = false := by
  refine ⟨?_, by decide, by decide, by decide, by decide⟩
  rw [process_game_turn_ai_eq]
  dsimp only
  rw [pyStartsWith, charsPrefixOf_iff]

/-- Claim C3 counterexample: `reset_game` on a seeded session leaves the
transcript empty (length 0, not 1) and `question_count = -1` (not 0): the
opening message is re-seeded by the callers (`game_loop`,
`simulate_game`), not by `reset_game` itself. -/
theorem c3_reset_counterexample :
    (reset_game (seeded_game "llm")).messages.length = 0
    ∧ question_count (reset_game (seeded_game "llm")) = -1 := by
  decide

/-- Claim C3 (amended): `reset_game` clears the transcript entirely (length 0)
and leaves the configuration unchanged; the resulting state equals a
freshly initialized session (whose transcript is also empty — seeding is
the caller's job); repeated reset is idempotent; and once the caller
re-seeds the opening message the transcript has length 1 and
`question_count = 0`. -/
theorem c3_reset_clears_and_preserves_config (g : TwentyQuestionsGame) :
    (reset_game g).messages = []
    ∧ (reset_game g).llm = g.llm
    ∧ reset_game (reset_game g) = reset_game g
    ∧ reset_game g = initialize_game g.llm
    ∧ (add_ai_message (reset_game g) init_message).messages.length = 1
    ∧ question_count (add_ai_message (reset_game g) init_message) = 0 := by
  refine ⟨rfl, rfl, rfl, rfl, rfl, ?_⟩
  simp [question_count, countAI, ai_messages, add_ai_message, reset_game]

/-- Claim C9: in the interactive `game_loop` path `process_game_turn` is called
with `concept = None`; whenever the response does not (after trimming and
lowercasing) start with "hooray", the short-circuited `or` evaluates
`concept.lower()` on `None` and the call raises `AttributeError` instead
of returning a triple; only a winning response takes the non-error
branch. -/
theorem c9_none_concept_raises_unless_winning (oracle : Oracle)
    (g : TwentyQuestionsGame) (input : String) :
    ((process_game_turn oracle g input none).1 = Except.error PyErr.attributeError ↔
      pyStartsWith (pyLower (pyStrip (turn_response oracle g input))) "hooray" = false)
    ∧ ((process_game_turn oracle g input none).1 =
        Except.ok (turn_response oracle g input, true, (countAI g.messages : Int)) ↔
      pyStartsWith (pyLower (pyStrip (turn_response oracle g input))) "hooray" = true) := by
  rw [process_game_turn_none_eq]
  by_cases h : pyStartsWith (pyLower (pyStrip (turn_response oracle g input))) "hooray"
  · rw [if_pos h]
    simp [h]
  · rw [if_neg h]
    simp only [Bool.not_eq_true] at h
    simp [h]

/-- Claim C10: `get_latest_question` returns the text of the most recent AI
(guesser) message in transcript order, returns `none` exactly when no AI
message exists, and after a `process_game_turn` call it returns exactly
the response just appended. -/
theorem c10_latest_question_is_last_ai_turn :
    (∀ g : TwentyQuestionsGame,
      get_latest_question g =
        (g.messages.reverse.find? (fun m => m.role == Role.ai)).map Msg.text)
    ∧ (∀ g : TwentyQuestionsGame,
      (get_latest_question g = none ↔ ∀ m ∈ g.messages, m.role ≠ Role.ai))
    ∧ (∀ (oracle : Oracle) (g : TwentyQuestionsGame) (input : String),
      get_latest_question (process_game_turn_ai oracle g input).2 =
        some (process_game_turn_ai oracle g input).1.1) := by
  refine ⟨?_, ?_, ?_⟩
  · intro g
    rw [get_latest_question, ai_messages, getLast?_filter_eq_find?_reverse]
  · intro g
    rw [get_latest_question, Option.map_eq_none', ai_messages,
      getLast?_filter_eq_find?_reverse, List.find?_eq_none]
    constructor
    · intro h m hm
      have := h m (List.mem_reverse.mpr hm)
      simpa using this
    · intro h m hm
      simpa using h m (List.mem_reverse.mp hm)
  · intro oracle g input
    rw [process_game_turn_ai_eq]
    dsimp only
    rw [get_latest_question, ai_messages, List.filter_append]
    simp [List.getLast?_concat, List.filter]

/-- Claim C5: in the concept-aware variant, a returned turn is terminal exactly
when the trimmed lowercased response starts with the victory token OR the
lowercased concept occurs anywhere inside the lowercased response (an
occurrence being a decomposition `s ++ concept ++ t`). -/
theorem c5_concept_substring_is_terminal (oracle : Oracle) (g : TwentyQuestionsGame)
    (input c r : String) (b : Bool) (q : Int) (g' : TwentyQuestionsGame)
    (h : process_game_turn oracle g input (some c) = (Except.ok (r, b, q), g')) :
    b = true ↔
      (pyStartsWith (pyLower (pyStrip r)) "hooray" = true
        ∨ ∃ s t, (pyLower r).data = s ++ (pyLower c).data ++ t) := by
  rw [process_game_turn_some_eq] at h
  simp only [Prod.mk.injEq, Except.ok.injEq] at h
  obtain ⟨⟨hr, hb, -⟩, -⟩ := h
  subst hr hb
  rw [Bool.or_eq_true, pyContains, hasSubstr_iff]

/-- Claim C5 witness: a concrete turn where the concept "apple" occurs inside
the response "Maybe an Apple?" (case-insensitively) and the turn is
reported terminal. -/
theorem c5_concept_substring_is_terminal_witness :
    true = true ↔
      (pyStartsWith (pyLower (pyStrip "Maybe an Apple?")) "hooray" = true
        ∨ ∃ s t, (pyLower "Maybe an Apple?").data = s ++ (pyLower "apple").data ++ t) :=
  c5_concept_substring_is_terminal (fun _ _ => "Maybe an Apple?") (seeded_game "llm")
    "Yes" "apple" "Maybe an Apple?" true 1
    { llm := "llm"
      messages := [{ role := Role.ai, text := init_message },
        { role := Role.human, text := "Yes" }, { role := Role.human, text := "Yes" },
        { role := Role.ai, text := "Maybe an Apple?" }] }
    (by decide)

/-- Claim C6: `ai_user_response` normalizes the raw responder output: it returns
"Yes" exactly when the stripped, lowercased raw output equals "yes", it
returns "No" in every other case, and its result is always one of exactly
these two strings. -/
theorem c6_ai_user_response_normalizes (predict : String → String) (concept question : String) :
    ((ai_user_response predict concept question = "Yes" ↔
        pyLower (pyStrip (predict (user_prompt concept question))) = "yes")
      ∧ (ai_user_response predict concept question = "No" ↔
        pyLower (pyStrip (predict (user_prompt concept question))) ≠ "yes"))
    ∧ (ai_user_response predict concept question = "Yes"
      ∨ ai_user_response predict concept question = "No") := by
  rw [ai_user_response]
  by_cases h : pyLower (pyStrip (predict (user_prompt concept question))) = "yes"
  · rw [if_pos h]
    refine ⟨⟨by simp [h], ?_⟩, Or.inl rfl⟩
    constructor
    · intro hy
      exact absurd hy (by decide)
    · intro hn
      exact absurd h hn
  · rw [if_neg h]
    refine ⟨⟨?_, by simp [h]⟩, Or.inr rfl⟩
    constructor
    · intro hy
      exact absurd hy (by decide)
    · intro hy
      exact absurd hy h

/-- Claim C4: in a simulated round in which no oracle response is ever terminal
for the concept (neither the victory token nor a concept mention), for any
responder behaviour, `simulate_game` returns Failure with `question_count`
exactly `max_questions = 20`: the loop runs exactly 20 non-terminal
exchanges, never fewer, never more. -/
theorem c4_never_terminal_fails_at_twenty (oracle : Oracle) (predict : String → String)
    (g : TwentyQuestionsGame) (concept : String)
    (hnt : ∀ msgs input,
      (pyStartsWith (pyLower (pyStrip (oracle msgs input))) "hooray"
        || pyContains (pyLower (oracle msgs input)) (pyLower concept)) = false) :
    (simulate_game oracle predict g concept).map (fun r => r.1) =
      Except.ok (concept, "Failure", 20) := by
  rw [simulate_game]
  refine simulate_loop_failure oracle predict concept hnt 21 0 "Yes" _ ?_
    (by norm_num) (by norm_num) (by norm_num)
  show ((countAI ((reset_game g).messages ++ _) : Nat) : Int) = 0 + 1
  rw [reset_game]
  norm_num [countAI, ai_messages]

/-- Claim C4 witness: a concrete never-terminal round ends as Failure at 20. -/
theorem c4_never_terminal_fails_at_twenty_witness :
    (simulate_game (fun _ _ => "Is it a vegetable?") (fun _ => "No")
      (initialize_game "llm") "apple").map (fun r => r.1) =
      Except.ok ("apple", "Failure", 20) :=
  c4_never_terminal_fails_at_twenty (fun _ _ => "Is it a vegetable?") (fun _ => "No")
    (initialize_game "llm") "apple"
    (fun _ _ =>
      (by decide :
        (pyStartsWith (pyLower (pyStrip "Is it a vegetable?")) "hooray"
          || pyContains (pyLower "Is it a vegetable?") (pyLower "apple")) = false))

/-- A successful `bulk_rounds` run produces exactly one round result per
requested round. -/
theorem bulk_rounds_length (oracle : Nat → Oracle) (predict : Nat → String → String)
    (choose : Nat → Nat) (concepts : List String) :
    ∀ (k i : Nat) (g : TwentyQuestionsGame) (rs : List (String × String × Int))
      (g' : TwentyQuestionsGame),
      bulk_rounds oracle predict choose concepts k i g = Except.ok (rs, g') →
      rs.length = k := by
  intro k
  induction k with
  | zero =>
    intro i g rs g' h
    rw [bulk_rounds] at h
    simp only [Except.ok.injEq, Prod.mk.injEq] at h
    rw [← h.1]
    rfl
  | succ k ih =>
    intro i g rs g' h
    rw [bulk_rounds] at h
    by_cases hc : concepts.length = 0
    · rw [if_pos hc] at h
      simp at h
    · rw [if_neg hc] at h
      rcases hsim : simulate_game (oracle i) (predict i) g
          (concepts.getD (choose i % concepts.length) "") with e | v
      · rw [hsim] at h
        simp at h
      · obtain ⟨r, g1⟩ := v
        rw [hsim] at h
        dsimp only at h
        rcases hrec : bulk_rounds oracle predict choose concepts k (i + 1) g1 with e | w
        · rw [hrec] at h
          simp at h
        · obtain ⟨rs0, g2⟩ := w
          rw [hrec] at h
          simp only [Except.ok.injEq, Prod.mk.injEq] at h
          rw [← h.1, List.length_cons, ih _ _ _ _ hrec]

/-- Claim C7: whenever a batch run returns a summary, `success_count` is the
number of rounds whose outcome is "Success", `average_questions` is the
mean of the question counts over all produced rounds (successes and
failures alike), `performance_score` is `success_count / num_games`, and
exactly `num_games` rounds are produced. -/
theorem c7_bulk_summary_aggregates (oracle : Nat → Oracle)
    (predict : Nat → String → String) (choose : Nat → Nat)
    (g : TwentyQuestionsGame) (concepts : List String) (num_games : Int)
    (res : BulkResults) (h1 : 1 ≤ num_games)
    (h : bulk_test_game oracle predict choose g concepts num_games = Except.ok res) :
    res.success_count =
      ((res.detailed_results.filter (fun r => r.2.1 == "Success")).length)
    ∧ res.detailed_results.length = num_games.toNat
    ∧ res.average_questions =
        ((res.detailed_results.map (fun r => ((r.2.2 : Int) : Rat))).sum) /
          ((res.detailed_results.length : Nat) : Rat)
    ∧ res.performance_score = ((res.success_count : Nat) : Rat) / (num_games : Rat) := by
  rw [bulk_test_game] at h
  rcases hrounds : bulk_rounds oracle predict choose concepts num_games.toNat 0 g with e | w
  · rw [hrounds] at h
    simp at h
  · obtain ⟨results, gfin⟩ := w
    rw [hrounds] at h
    dsimp only at h
    have hz : ¬ (num_games = 0) := by omega
    rw [if_neg hz] at h
    simp only [Except.ok.injEq] at h
    have hlen : results.length = num_games.toNat :=
      bulk_rounds_length oracle predict choose concepts _ _ _ _ _ hrounds
    subst h
    refine ⟨?_, hlen, ?_, rfl⟩
    · exact List.countP_eq_length_filter _ _
    · have hcast : ((results.length : Nat) : Rat) = ((num_games : Int) : Rat) := by
        rw [hlen]
        have := Int.toNat_of_nonneg (le_trans (by norm_num) h1)
        exact_mod_cast congrArg (fun z : Int => (z : Rat)) this
      rw [hcast]

/-- Claim C7 witness: one round with an immediately winning guesser produces one
Success with one question, average 1 and score 1. -/
theorem c7_bulk_summary_aggregates_witness :
    (1 : Nat) = (([("apple", "Success", (1 : Int))].filter
        (fun r => r.2.1 == "Success")).length)
    ∧ [("apple", "Success", (1 : Int))].length = (1 : Int).toNat
    ∧ (1 : Rat) = (([("apple", "Success", (1 : Int))].map
          (fun r => ((r.2.2 : Int) : Rat))).sum) /
        (([("apple", "Success", (1 : Int))].length : Nat) : Rat)
    ∧ (1 : Rat) = ((1 : Nat) : Rat) / ((1 : Int) : Rat) :=
  c7_bulk_summary_aggregates (fun _ _ _ => "Hooray") (fun _ _ => "No") (fun _ => 0)
    (initialize_game "llm") ["apple"] 1
    { detailed_results := [("apple", "Success", 1)], success_count := 1,
      average_questions := 1, performance_score := 1 }
    (by decide)
    (by
      have hr : bulk_rounds (fun _ _ _ => "Hooray") (fun _ _ => "No") (fun _ => 0)
          ["apple"] (1 : Int).toNat 0 (initialize_game "llm") =
          Except.ok ([("apple", "Success", 1)],
            { llm := "llm"
              messages := [{ role := Role.ai, text := init_message },
                { role := Role.human, text := "Yes" }, { role := Role.human, text := "Yes" },
                { role := Role.ai, text := "Hooray" }] }) := by decide
      rw [bulk_test_game, hr]
      dsimp only
      rw [if_neg (by decide : ¬((1 : Int) = 0))]
      have hcount : List.countP (fun r => r.2.1 == "Success")
          [("apple", "Success", (1 : Int))] = 1 := by decide
      simp only [hcount, Except.ok.injEq, BulkResults.mk.injEq, List.map,
        List.sum_cons, List.sum_nil]
      norm_num)

/-- Claim C8 counterexample: the batch evaluator performs no InvalidInput
validation.  With an empty concepts list and `num_rounds = 1` it raises
`IndexError` (from `random.choice`), not InvalidInput; and with
`num_rounds = -1 < 1` it raises nothing at all and returns a zero-round
summary. -/
theorem c8_no_invalid_input_validation_counterexample :
    (bulk_test_game (fun _ _ _ => "Hooray") (fun _ _ => "No") (fun _ => 0)
      (initialize_game "llm") [] 1 = Except.error PyErr.indexError)
    ∧ (bulk_test_game (fun _ _ _ => "Hooray") (fun _ _ => "No") (fun _ => 0)
      (initialize_game "llm") ["apple"] (-1)).isOk = true
    ∧ PyErr.indexError ≠ PyErr.invalidInput := by
  refine ⟨by decide, by decide, by decide⟩

/-- Claim C8 (amended): the code has no explicit precondition validation.  With
an empty concepts list and `num_rounds ≥ 1` the first `random.choice`
raises `IndexError`; with `num_rounds = 0` the average computation raises
`ZeroDivisionError`; (and, per the counterexample, a negative
`num_rounds` returns a zero-round summary without any error). -/
theorem c8_precondition_violations_raise (oracle : Nat → Oracle)
    (predict : Nat → String → String) (choose : Nat → Nat)
    (g : TwentyQuestionsGame) (num_games : Int) (concepts : List String) :
    (1 ≤ num_games →
      bulk_test_game oracle predict choose g [] num_games = Except.error PyErr.indexError)
    ∧ bulk_test_game oracle predict choose g concepts 0 =
        Except.error PyErr.zeroDivisionError := by
  constructor
  · intro h1
    obtain ⟨m, hm⟩ : ∃ m, num_games.toNat = m + 1 := ⟨num_games.toNat - 1, by omega⟩
    rw [bulk_test_game, hm, bulk_rounds]
    rfl
  · rw [bulk_test_game]
    rfl

/-- Claim C8 witness: concrete violated-precondition calls raise as amended. -/
theorem c8_precondition_violations_raise_witness :
    bulk_test_game (fun _ _ _ => "Hooray") (fun _ _ => "No") (fun _ => 0)
      (initialize_game "llm") [] 2 = Except.error PyErr.indexError :=
  (c8_precondition_violations_raise (fun _ _ _ => "Hooray") (fun _ _ => "No")
    (fun _ => 0) (initialize_game "llm") 2 ["apple"]).1 (by decide)

example : question_count (seeded_game "llm") = 0 := by decide
example :
    (process_game_turn_ai (fun _ _ => "Is it an animal?") (seeded_game "llm") "Yes").1.2.2 = 1 := by
  decide
example :
    (process_game_turn (fun _ _ => "Is it an animal?") (seeded_game "llm") "Yes" none).1 =
      Except.error PyErr.attributeError := by
  decide
example :
    (process_game_turn (fun _ _ => "Hooray! I win!") (seeded_game "llm") "Yes" none).1 =
      Except.ok ("Hooray! I win!", true, 1) := by
  decide
example : hasSubstr "apple".data "i guess an apple?".data = true := by decide
example : hasSubstr "apple".data "i guess a pear?".data = false := by decide
example :
    (process_game_turn (fun _ _ => "Maybe an Apple?") (seeded_game "llm") "Yes" (some "apple")).1 =
      Except.ok ("Maybe an Apple?", true, 1) := by
  decide
